import Mathlib

/-!
Verification of the go-socks5 connection supervisor (`socks5.go`): a shallow
embedding of the `Config`/`Server` data model, the constructor `New`, the
accept loop `Serve`, and the per-connection handler `ServeConn`, with theorems
settling the specification claims about admission control, counter
accounting, panic containment, error handling, and constructor defaulting.

Opaque collaborator values (credential stores, custom resolvers, loggers,
error payloads, panic payloads) are modelled as `Nat` identifiers; Go `nil`
interface/pointer fields are modelled as `Option`.
-/

namespace Socks5

/-- An authenticator, as stored in `Config.AuthMethods`.  The two concrete
variants the constructor can install (`UserPassAuthenticator` wrapping the
credential store, `NoAuthAuthenticator`) are distinguished; any other
user-supplied authenticator is `custom`, carrying its method code. -/
inductive Authenticator where
  | UserPassAuthenticator (creds : Nat)
  | NoAuthAuthenticator
  | custom (code : Nat)
deriving DecidableEq, Repr

/-- Modelled from the spec: the method-identifier byte of an authenticator
(`GetCode`, defined in the repository's auth file which is not part of the
supervisor source).  The spec's wire example gives 0 for no-auth; the
username/password method uses the standard identifier 2. -/
def Authenticator.GetCode : Authenticator → Nat
  | .NoAuthAuthenticator => 0
  | .UserPassAuthenticator _ => 2
  | .custom code => code

/-- A name resolver (`NameResolver` interface value). -/
inductive NameResolver where
  | DNSResolver
  | custom (id : Nat)
deriving DecidableEq, Repr

/-- A rule set (`RuleSet` interface value); `PermitAll` is the default. -/
inductive RuleSet where
  | PermitAll
  | custom (id : Nat)
deriving DecidableEq, Repr

/-- A log target (`*log.Logger`); the default is a standard-output logger. -/
inductive GoLogger where
  | stdoutLogger
  | custom (id : Nat)
deriving DecidableEq, Repr

/-- The `Config` struct.  Interface and pointer fields that `New` compares
against `nil` are `Option`; `ConnLimit` and the timeouts are Go `int` /
`time.Duration` values, modelled as `Int`. -/
structure Config where
  AuthMethods : List Authenticator
  Credentials : Option Nat
  Resolver : Option NameResolver
  Rules : Option RuleSet
  Rewriter : Option Nat
  BindIP : Option (List Nat)
  Logger : Option GoLogger
  Dial : Option Nat
  ConnLimit : Int
  IdleTimeout : Int
  ConnectTimeout : Int
deriving DecidableEq, Repr

/-- The record sent on the finished-connection channel (`FinishedConnInfo`):
peer IP, peer port (both rendered as opaque values) and elapsed duration. -/
structure FinishedConnInfo where
  IP : Nat
  Port : Nat
  Duration : Int
deriving DecidableEq, Repr

/-- The first if-block of `New`: when no auth method is configured, install
a username/password authenticator wrapping the credential store when one is
supplied, otherwise a no-auth authenticator. -/
def defaultAuthMethods (conf : Config) : Config :=
  if conf.AuthMethods.length = 0 then
    match conf.Credentials with
    | some cs => { conf with AuthMethods := [Authenticator.UserPassAuthenticator cs] }
    | none => { conf with AuthMethods := [Authenticator.NoAuthAuthenticator] }
  else conf

/-- The second if-block of `New`: a `nil` resolver becomes `DNSResolver`. -/
def defaultResolver (conf : Config) : Config :=
  if conf.Resolver.isNone then { conf with Resolver := some NameResolver.DNSResolver }
  else conf

/-- The third if-block of `New`: a `nil` rule set becomes `PermitAll()`. -/
def defaultRules (conf : Config) : Config :=
  if conf.Rules.isNone then { conf with Rules := some RuleSet.PermitAll }
  else conf

/-- The fourth if-block of `New`: a `nil` logger becomes a standard-output
logger. -/
def defaultLogger (conf : Config) : Config :=
  if conf.Logger.isNone then { conf with Logger := some GoLogger.stdoutLogger }
  else conf

/-- The fifth if-block of `New`: a zero `ConnLimit` becomes 50000. -/
def defaultConnLimit (conf : Config) : Config :=
  if conf.ConnLimit = 0 then { conf with ConnLimit := 50000 }
  else conf

/-- The in-place mutation `New` performs on `*conf`: the five defaulting
if-blocks, in source order. -/
def applyDefaults (conf : Config) : Config :=
  defaultConnLimit (defaultLogger (defaultRules (defaultResolver (defaultAuthMethods conf))))

/-- Go map assignment `m[k] = v`: replace the binding for `k` if present,
otherwise add it. -/
def mapAssign (m : List (Nat × Authenticator)) (k : Nat) (v : Authenticator) :
    List (Nat × Authenticator) :=
  if m.any (fun p => p.fst = k) then
    m.map (fun p => if p.fst = k then (k, v) else p)
  else
    m ++ [(k, v)]

/-- The `Server` struct.  `config` is a pointer, modelled as a heap address
(`Nat`); `sema` is a channel of capacity `conf.ConnLimit`, modelled by its
capacity; `ConnCountChan` and `FinishedConnChan` are unbuffered channels,
modelled by their capacity 0; `ConnCount` starts at 0. -/
structure Server where
  config : Nat
  authMethods : List (Nat × Authenticator)
  semaCap : Int
  connCountChanCap : Nat
  finishedConnChanCap : Nat
  ConnCount : Int
deriving DecidableEq, Repr

/-- A heap of `Config` cells, indexed by address; `New` receives `*Config`. -/
def ConfigHeap : Type := Nat → Config

/-- The constructor `New conf`: mutate the caller's `Config` in place
(`applyDefaults` at address `r`), then build the `Server` holding the same
pointer `r`, a slot channel of capacity `conf.ConnLimit` (read after the
mutation), unbuffered notification channels, and the auth-method map keyed
by `GetCode`.  Returns the updated heap and the server. -/
def New (h : ConfigHeap) (r : Nat) : ConfigHeap × Server :=
  let conf := applyDefaults (h r)
  let h' : ConfigHeap := fun x => if x = r then conf else h x
  (h',
    { config := r
      authMethods := conf.AuthMethods.foldl (fun m a => mapAssign m a.GetCode a) []
      semaCap := conf.ConnLimit
      connCountChanCap := 0
      finishedConnChanCap := 0
      ConnCount := 0 })

/-! ### The accept loop `Serve` -/

/-- One result of `l.Accept()`: either a new connection, or an accept error.
`fatal` marks a listener-level error (e.g. the listener was closed), as
opposed to a transient per-connection accept failure. -/
inductive AcceptResult where
  | conn (id : Nat)
  | acceptErr (fatal : Bool)
deriving DecidableEq, Repr

/-- What one iteration of the `Serve` loop does with an accept result. -/
inductive ServeAction where
  | logAndContinue
  | spawnAndContinue (id : Nat)
  | stop
deriving DecidableEq, Repr

/-- The body of the `for` loop in `Serve`: an accept error is logged and the
loop continues; otherwise the connection deadline is set and a worker is
spawned.  The source contains no `return` or `break`, so no accept result
produces `ServeAction.stop`. -/
def serveStep : AcceptResult → ServeAction
  | .acceptErr _ => .logAndContinue
  | .conn id => .spawnAndContinue id

/-- Running the accept loop over a finite prefix of accept results: the loop
body is applied to every result in order. -/
def serveTrace (rs : List AcceptResult) : List ServeAction :=
  rs.map serveStep

/-! ### The per-connection handler `ServeConn`

The collaborators `ServeConn` calls (`bufConn.Read`, `s.authenticate`,
`NewRequest`, `sendReply`, `s.handleRequest`) live outside the supervisor
source; each call's outcome is an oracle field of `ConnInput`.  An outcome is
a value, a Go error, or a panic. -/

/-- The outcome of one collaborator call: a result, an error (opaque payload),
or a panic (opaque payload). -/
inductive Outcome (α : Type) where
  | ok (a : α)
  | fail (e : Nat)
  | panicked (msg : Nat)
deriving DecidableEq, Repr

/-- The outcome of `NewRequest(bufConn)`: a decoded request (opaque),
the distinguished `unrecognizedAddrType` error, any other decode error,
or a panic. -/
inductive ReqDecodeOutcome where
  | ok (req : Nat)
  | errUnrecognizedAddrType
  | errOther (e : Nat)
  | panicked (msg : Nat)
deriving DecidableEq, Repr

/-- Reply status codes that `ServeConn` itself can pass to `sendReply`.
Only `addrTypeNotSupported` occurs at this level; replies written inside
`handleRequest` belong to that collaborator. -/
inductive ReplyStatus where
  | addrTypeNotSupported
deriving DecidableEq, Repr

/-- The environment of one `ServeConn` call: whether the non-blocking send
into `s.sema` succeeds (pool not full), whether a receiver is ready on the
unbuffered `ConnCountChan` at each of the two best-effort publishes, the
client's remote TCP address when the transport exposes one, and the oracle
outcomes of the collaborator calls in source order. -/
structure ConnInput where
  semaFree : Bool
  countChanReadyAtInc : Bool
  countChanReadyAtRelease : Bool
  remoteTCP : Option (Nat × Nat)
  versionRead : Outcome Nat
  authResult : Outcome Nat
  requestResult : ReqDecodeOutcome
  sendReplyResult : Outcome Unit
  handleResult : Outcome Unit
deriving DecidableEq, Repr

/-- The error value `ServeConn` returns, following the `fmt.Errorf`
wrappings in the source. -/
inductive GoErr where
  | exhausted
  | versionReadErr (e : Nat)
  | unsupportedVersion (v : Nat)
  | failedAuthenticate (e : Nat)
  | failedSendReply (e : Nat)
  | failedReadDestAddrType
  | failedReadDestOther (e : Nat)
  | failedHandle (e : Nat)
deriving DecidableEq, Repr

/-- How the protocol body (everything after admission) exits: a normal
return, an error return, or a panic. -/
inductive ExitKind where
  | normal
  | errReturn (e : GoErr)
  | panicExit (msg : Nat)
deriving DecidableEq, Repr

/-- What the protocol body did before exiting: which collaborator calls were
made and which replies `ServeConn` itself sent. -/
structure BodyResult where
  exit : ExitKind
  versionReadCalled : Bool
  authCalled : Bool
  newRequestCalled : Bool
  handleRequestCalled : Bool
  replySends : List ReplyStatus
deriving DecidableEq, Repr

/-- The protocol body of `ServeConn`, from `bufConn := bufio.NewReader`
onwards: read the version byte, check it equals 5, authenticate, decode the
request (replying `addrTypeNotSupported` when decode fails with the
unrecognized-address-type error), attach context, and handle the request.
A panic in any collaborator aborts the body with `ExitKind.panicExit`. -/
def bodyRun (inp : ConnInput) : BodyResult :=
  match inp.versionRead with
  | .panicked m =>
      { exit := .panicExit m, versionReadCalled := true, authCalled := false,
        newRequestCalled := false, handleRequestCalled := false, replySends := [] }
  | .fail e =>
      { exit := .errReturn (.versionReadErr e), versionReadCalled := true,
        authCalled := false, newRequestCalled := false,
        handleRequestCalled := false, replySends := [] }
  | .ok v =>
      if v = 5 then
        match inp.authResult with
        | .panicked m =>
            { exit := .panicExit m, versionReadCalled := true, authCalled := true,
              newRequestCalled := false, handleRequestCalled := false, replySends := [] }
        | .fail e =>
            { exit := .errReturn (.failedAuthenticate e), versionReadCalled := true,
              authCalled := true, newRequestCalled := false,
              handleRequestCalled := false, replySends := [] }
        | .ok _ =>
            match inp.requestResult with
            | .panicked m =>
                { exit := .panicExit m, versionReadCalled := true, authCalled := true,
                  newRequestCalled := true, handleRequestCalled := false, replySends := [] }
            | .errUnrecognizedAddrType =>
                match inp.sendReplyResult with
                | .panicked m =>
                    { exit := .panicExit m, versionReadCalled := true, authCalled := true,
                      newRequestCalled := true, handleRequestCalled := false,
                      replySends := [.addrTypeNotSupported] }
                | .fail e =>
                    { exit := .errReturn (.failedSendReply e), versionReadCalled := true,
                      authCalled := true, newRequestCalled := true,
                      handleRequestCalled := false, replySends := [.addrTypeNotSupported] }
                | .ok _ =>
                    { exit := .errReturn .failedReadDestAddrType, versionReadCalled := true,
                      authCalled := true, newRequestCalled := true,
                      handleRequestCalled := false, replySends := [.addrTypeNotSupported] }
            | .errOther e =>
                { exit := .errReturn (.failedReadDestOther e), versionReadCalled := true,
                  authCalled := true, newRequestCalled := true,
                  handleRequestCalled := false, replySends := [] }
            | .ok _ =>
                match inp.handleResult with
                | .panicked m =>
                    { exit := .panicExit m, versionReadCalled := true, authCalled := true,
                      newRequestCalled := true, handleRequestCalled := true, replySends := [] }
                | .fail e =>
                    { exit := .errReturn (.failedHandle e), versionReadCalled := true,
                      authCalled := true, newRequestCalled := true,
                      handleRequestCalled := true, replySends := [] }
                | .ok _ =>
                    { exit := .normal, versionReadCalled := true, authCalled := true,
                      newRequestCalled := true, handleRequestCalled := true, replySends := [] }
      else
        { exit := .errReturn (.unsupportedVersion v), versionReadCalled := true,
          authCalled := false, newRequestCalled := false,
          handleRequestCalled := false, replySends := [] }

/-- The observable result of one `ServeConn` call: its return value (`none`
is a `nil` error, which is also what Go returns after a recovered panic),
whether admission succeeded, how many times the slot was released and the
counter moved, how many best-effort count publishes were attempted and
delivered, every `FinishedConnInfo` sent, whether the connection was closed,
the body's call trace, and whether a panic was recovered and logged. -/
structure ConnResult where
  ret : Option GoErr
  admitted : Bool
  semaReleases : Nat
  counterIncs : Nat
  counterDecs : Nat
  countPublishAttempts : Nat
  countPublishDeliveries : Nat
  finishedConnSends : List FinishedConnInfo
  connClosed : Bool
  versionReadCalled : Bool
  authCalled : Bool
  newRequestCalled : Bool
  handleRequestCalled : Bool
  replySends : List ReplyStatus
  panicRecovered : Bool
deriving DecidableEq, Repr

/-- `ServeConn`: register the recover and `conn.Close` defers; try a
non-blocking send into `s.sema`, returning the exhausted error on failure;
otherwise register the release defer (receive from `s.sema`, decrement
`ConnCount`, best-effort publish the count), increment `ConnCount`,
best-effort publish the count, and run the protocol body.  On every exit of
an admitted call the release defer runs exactly once and the connection is
closed; a panic is recovered and logged, and the function then returns the
zero error value.  No send on `FinishedConnChan` occurs anywhere in the
source, so `finishedConnSends` is `[]` on every path. -/
def serveConn (inp : ConnInput) : ConnResult :=
  if inp.semaFree then
    let b := bodyRun inp
    { ret :=
        match b.exit with
        | .normal => none
        | .errReturn e => some e
        | .panicExit _ => none
      admitted := true
      semaReleases := 1
      counterIncs := 1
      counterDecs := 1
      countPublishAttempts := 2
      countPublishDeliveries :=
        (if inp.countChanReadyAtInc then 1 else 0) +
        (if inp.countChanReadyAtRelease then 1 else 0)
      finishedConnSends := []
      connClosed := true
      versionReadCalled := b.versionReadCalled
      authCalled := b.authCalled
      newRequestCalled := b.newRequestCalled
      handleRequestCalled := b.handleRequestCalled
      replySends := b.replySends
      panicRecovered :=
        match b.exit with
        | .panicExit _ => true
        | _ => false }
  else
    { ret := some .exhausted
      admitted := false
      semaReleases := 0
      counterIncs := 0
      counterDecs := 0
      countPublishAttempts := 0
      countPublishDeliveries := 0
      finishedConnSends := []
      connClosed := true
      versionReadCalled := false
      authCalled := false
      newRequestCalled := false
      handleRequestCalled := false
      replySends := []
      panicRecovered := false }

/-! ### The admission pool as a transition system

Across concurrent workers, the shared mutable state is the slot channel
occupancy and the atomic counter.  `ServeConn` performs the send into
`s.sema` together with the `ConnCount` increment on admission, and the
receive together with the decrement on release; `PoolStep` is that pair of
atomic transitions, and `Reachable` the states a server starting from an
empty pool can be in at quiescent points. -/

/-- Shared admission state: slot-channel occupancy and the live counter. -/
structure PoolState where
  sema : Nat
  count : Int
deriving DecidableEq, Repr

/-- One transition of the shared admission state, for a pool of capacity
`cap`: a worker is admitted (the non-blocking send succeeds only while the
channel holds fewer than `cap` tokens, and the counter is incremented), or a
finished worker releases its slot and decrements the counter. -/
inductive PoolStep (cap : Nat) : PoolState → PoolState → Prop where
  | acquire (s : PoolState) (h : s.sema < cap) :
      PoolStep cap s ⟨s.sema + 1, s.count + 1⟩
  | release (s : PoolState) (h : 0 < s.sema) :
      PoolStep cap s ⟨s.sema - 1, s.count - 1⟩

/-- States reachable from the freshly constructed server (empty slot
channel, counter 0) under `PoolStep`. -/
inductive Reachable (cap : Nat) : PoolState → Prop where
  | init : Reachable cap ⟨0, 0⟩
  | step {s t : PoolState} : Reachable cap s → PoolStep cap s t → Reachable cap t

/-! ### Helper lemmas -/

theorem defaultAuthMethods_Resolver (c : Config) :
    (defaultAuthMethods c).Resolver = c.Resolver := by
  by_cases h : c.AuthMethods.length = 0 <;> cases hc : c.Credentials <;>
    simp [defaultAuthMethods, h, hc]

theorem defaultAuthMethods_Rules (c : Config) :
    (defaultAuthMethods c).Rules = c.Rules := by
  by_cases h : c.AuthMethods.length = 0 <;> cases hc : c.Credentials <;>
    simp [defaultAuthMethods, h, hc]

theorem defaultAuthMethods_Logger (c : Config) :
    (defaultAuthMethods c).Logger = c.Logger := by
  by_cases h : c.AuthMethods.length = 0 <;> cases hc : c.Credentials <;>
    simp [defaultAuthMethods, h, hc]

theorem defaultAuthMethods_ConnLimit (c : Config) :
    (defaultAuthMethods c).ConnLimit = c.ConnLimit := by
  by_cases h : c.AuthMethods.length = 0 <;> cases hc : c.Credentials <;>
    simp [defaultAuthMethods, h, hc]

theorem defaultResolver_AuthMethods (c : Config) :
    (defaultResolver c).AuthMethods = c.AuthMethods := by
  by_cases h : c.Resolver.isNone <;> simp [defaultResolver, h]

theorem defaultResolver_Rules (c : Config) :
    (defaultResolver c).Rules = c.Rules := by
  by_cases h : c.Resolver.isNone <;> simp [defaultResolver, h]

theorem defaultResolver_Logger (c : Config) :
    (defaultResolver c).Logger = c.Logger := by
  by_cases h : c.Resolver.isNone <;> simp [defaultResolver, h]

theorem defaultResolver_ConnLimit (c : Config) :
    (defaultResolver c).ConnLimit = c.ConnLimit := by
  by_cases h : c.Resolver.isNone <;> simp [defaultResolver, h]

theorem defaultResolver_Resolver (c : Config) :
    (defaultResolver c).Resolver =
      if c.Resolver.isNone then some NameResolver.DNSResolver else c.Resolver := by
  by_cases h : c.Resolver.isNone <;> simp [defaultResolver, h]

theorem defaultRules_AuthMethods (c : Config) :
    (defaultRules c).AuthMethods = c.AuthMethods := by
  by_cases h : c.Rules.isNone <;> simp [defaultRules, h]

theorem defaultRules_Resolver (c : Config) :
    (defaultRules c).Resolver = c.Resolver := by
  by_cases h : c.Rules.isNone <;> simp [defaultRules, h]

theorem defaultRules_Logger (c : Config) :
    (defaultRules c).Logger = c.Logger := by
  by_cases h : c.Rules.isNone <;> simp [defaultRules, h]

theorem defaultRules_ConnLimit (c : Config) :
    (defaultRules c).ConnLimit = c.ConnLimit := by
  by_cases h : c.Rules.isNone <;> simp [defaultRules, h]

theorem defaultRules_Rules (c : Config) :
    (defaultRules c).Rules = if c.Rules.isNone then some RuleSet.PermitAll else c.Rules := by
  by_cases h : c.Rules.isNone <;> simp [defaultRules, h]

theorem defaultLogger_AuthMethods (c : Config) :
    (defaultLogger c).AuthMethods = c.AuthMethods := by
  by_cases h : c.Logger.isNone <;> simp [defaultLogger, h]

theorem defaultLogger_Resolver (c : Config) :
    (defaultLogger c).Resolver = c.Resolver := by
  by_cases h : c.Logger.isNone <;> simp [defaultLogger, h]

theorem defaultLogger_Rules (c : Config) :
    (defaultLogger c).Rules = c.Rules := by
  by_cases h : c.Logger.isNone <;> simp [defaultLogger, h]

theorem defaultLogger_ConnLimit (c : Config) :
    (defaultLogger c).ConnLimit = c.ConnLimit := by
  by_cases h : c.Logger.isNone <;> simp [defaultLogger, h]

theorem defaultLogger_Logger (c : Config) :
    (defaultLogger c).Logger =
      if c.Logger.isNone then some GoLogger.stdoutLogger else c.Logger := by
  by_cases h : c.Logger.isNone <;> simp [defaultLogger, h]

theorem defaultConnLimit_AuthMethods (c : Config) :
    (defaultConnLimit c).AuthMethods = c.AuthMethods := by
  by_cases h : c.ConnLimit = 0 <;> simp [defaultConnLimit, h]

theorem defaultConnLimit_Resolver (c : Config) :
    (defaultConnLimit c).Resolver = c.Resolver := by
  by_cases h : c.ConnLimit = 0 <;> simp [defaultConnLimit, h]

theorem defaultConnLimit_Rules (c : Config) :
    (defaultConnLimit c).Rules = c.Rules := by
  by_cases h : c.ConnLimit = 0 <;> simp [defaultConnLimit, h]

theorem defaultConnLimit_Logger (c : Config) :
    (defaultConnLimit c).Logger = c.Logger := by
  by_cases h : c.ConnLimit = 0 <;> simp [defaultConnLimit, h]

theorem defaultConnLimit_ConnLimit (c : Config) :
    (defaultConnLimit c).ConnLimit = if c.ConnLimit = 0 then 50000 else c.ConnLimit := by
  by_cases h : c.ConnLimit = 0 <;> simp [defaultConnLimit, h]

theorem applyDefaults_ConnLimit (c : Config) :
    (applyDefaults c).ConnLimit = if c.ConnLimit = 0 then 50000 else c.ConnLimit := by
  unfold applyDefaults
  rw [defaultConnLimit_ConnLimit, defaultLogger_ConnLimit, defaultRules_ConnLimit,
    defaultResolver_ConnLimit, defaultAuthMethods_ConnLimit]

theorem applyDefaults_AuthMethods (c : Config) :
    (applyDefaults c).AuthMethods = (defaultAuthMethods c).AuthMethods := by
  unfold applyDefaults
  rw [defaultConnLimit_AuthMethods, defaultLogger_AuthMethods, defaultRules_AuthMethods,
    defaultResolver_AuthMethods]

theorem applyDefaults_Resolver (c : Config) :
    (applyDefaults c).Resolver =
      if c.Resolver.isNone then some NameResolver.DNSResolver else c.Resolver := by
  unfold applyDefaults
  rw [defaultConnLimit_Resolver, defaultLogger_Resolver, defaultRules_Resolver,
    defaultResolver_Resolver, defaultAuthMethods_Resolver]

theorem applyDefaults_Rules (c : Config) :
    (applyDefaults c).Rules =
      if c.Rules.isNone then some RuleSet.PermitAll else c.Rules := by
  unfold applyDefaults
  rw [defaultConnLimit_Rules, defaultLogger_Rules, defaultRules_Rules,
    defaultResolver_Rules, defaultAuthMethods_Rules]

theorem applyDefaults_Logger (c : Config) :
    (applyDefaults c).Logger =
      if c.Logger.isNone then some GoLogger.stdoutLogger else c.Logger := by
  unfold applyDefaults
  rw [defaultConnLimit_Logger, defaultLogger_Logger, defaultRules_Logger,
    defaultResolver_Logger, defaultAuthMethods_Logger]

theorem New_heap_at (h : ConfigHeap) (r : Nat) : (New h r).1 r = applyDefaults (h r) := by
  simp [New]

theorem New_heap_frame (h : ConfigHeap) (r x : Nat) (hx : x ≠ r) :
    (New h r).1 x = h x := by
  simp [New, hx]

theorem New_config_ptr (h : ConfigHeap) (r : Nat) : (New h r).2.config = r := rfl

theorem New_semaCap (h : ConfigHeap) (r : Nat) :
    (New h r).2.semaCap = (applyDefaults (h r)).ConnLimit := rfl

theorem serveConn_admitted_iff (inp : ConnInput) :
    (serveConn inp).admitted = inp.semaFree := by
  by_cases h : inp.semaFree <;> simp [serveConn, h]

theorem defaultAuthMethods_empty (c : Config) (he : c.AuthMethods = []) :
    (defaultAuthMethods c).AuthMethods =
      match c.Credentials with
      | some cs => [Authenticator.UserPassAuthenticator cs]
      | none => [Authenticator.NoAuthAuthenticator] := by
  cases hc : c.Credentials <;> simp [defaultAuthMethods, he, hc]

theorem defaultAuthMethods_nonempty (c : Config) (he : c.AuthMethods ≠ []) :
    (defaultAuthMethods c).AuthMethods = c.AuthMethods := by
  have hl : ¬ c.AuthMethods.length = 0 := by simpa using he
  simp [defaultAuthMethods, hl]

/-! ### Claim theorems -/

/-- Claim C1 (code bug): the spec states that whenever an admitted connection
finishes — success, error, or panic — the server best-effort publishes a
`FinishedConnInfo` completion record (peer IP, peer port, elapsed duration)
on `FinishedConnChan`.  The source declares that channel, and the doc
comment of `GetFinishedConnChan` promises that every finished connection is
pushed to it, but `ServeConn` contains no send on it on any path: the first
conjunct shows no execution of the handler publishes a completion record,
and the remaining conjuncts exhibit a successfully admitted connection that
completes the whole protocol normally and still publishes nothing. -/
theorem serveConn_never_publishes_completion_record :
    (∀ inp : ConnInput, (serveConn inp).finishedConnSends = []) ∧
    (serveConn ⟨true, true, true, some (7, 4242), Outcome.ok 5, Outcome.ok 0,
        ReqDecodeOutcome.ok 0, Outcome.ok (), Outcome.ok ()⟩).admitted = true ∧
    (serveConn ⟨true, true, true, some (7, 4242), Outcome.ok 5, Outcome.ok 0,
        ReqDecodeOutcome.ok 0, Outcome.ok (), Outcome.ok ()⟩).ret = none ∧
    (serveConn ⟨true, true, true, some (7, 4242), Outcome.ok 5, Outcome.ok 0,
        ReqDecodeOutcome.ok 0, Outcome.ok (), Outcome.ok ()⟩).finishedConnSends = [] := by
  refine ⟨?_, rfl, rfl, rfl⟩
  intro inp
  by_cases h : inp.semaFree <;> simp [serveConn, h]

/-- Claim C2: the slot channel is created with capacity exactly the defaulted
`ConnLimit` (read back through the server's own config pointer), and in the
transition system of admissions and releases every reachable shared state
has at most `cap` outstanding slots while the live counter equals the number
of admitted, unreleased connections. -/
theorem admission_bounded_and_counter_matches :
    (∀ (h : ConfigHeap) (r : Nat),
      (New h r).2.semaCap = ((New h r).1 ((New h r).2.config)).ConnLimit) ∧
    (∀ (cap : Nat) (s : PoolState), Reachable cap s →
      s.sema ≤ cap ∧ s.count = (s.sema : Int)) := by
  constructor
  · intro h r
    rw [New_config_ptr, New_heap_at, New_semaCap]
  · intro cap s hs
    induction hs with
    | init => exact ⟨Nat.zero_le _, rfl⟩
    | step hprev hstep ih =>
      cases hstep with
      | acquire hlt =>
        refine ⟨hlt, ?_⟩
        have h2 := ih.2
        simp only at h2 ⊢
        omega
      | release hpos =>
        have h1 := ih.1
        have h2 := ih.2
        refine ⟨?_, ?_⟩ <;> simp only at h1 h2 ⊢ <;> omega

/-- Witness for C2: the state with one admitted connection is reachable in a
pool of capacity 1 and satisfies the invariant. -/
theorem admission_bounded_and_counter_matches_witness :
    (PoolState.mk 1 1).sema ≤ 1 ∧ (PoolState.mk 1 1).count = ((PoolState.mk 1 1).sema : Int) :=
  admission_bounded_and_counter_matches.2 1 ⟨1, 1⟩
    (Reachable.step Reachable.init (PoolStep.acquire ⟨0, 0⟩ (by decide)))

/-- Claim C3: every admitted `ServeConn` call, on every exit path — normal
return, error return, or panic — releases the slot exactly once, decrements
the counter exactly once (having incremented it exactly once), closes the
connection, and a panic in the body is recovered (the recover defer runs and
logs it) with the function returning the zero error value instead of
propagating the panic. -/
theorem admitted_always_released_once (inp : ConnInput)
    (h : (serveConn inp).admitted = true) :
    (serveConn inp).semaReleases = 1 ∧ (serveConn inp).counterDecs = 1 ∧
    (serveConn inp).counterIncs = 1 ∧ (serveConn inp).connClosed = true ∧
    (∀ m : Nat, (bodyRun inp).exit = ExitKind.panicExit m →
      (serveConn inp).panicRecovered = true ∧ (serveConn inp).ret = none) := by
  have hs : inp.semaFree = true := by rw [← serveConn_admitted_iff]; exact h
  refine ⟨by simp [serveConn, hs], by simp [serveConn, hs], by simp [serveConn, hs],
    by simp [serveConn, hs], ?_⟩
  intro m hm
  exact ⟨by simp [serveConn, hs, hm], by simp [serveConn, hs, hm]⟩

/-- Witness for C3: a connection admitted into a free pool whose request
handling panics is released exactly once and the panic is recovered. -/
theorem admitted_always_released_once_witness :
    (serveConn ⟨true, false, false, none, Outcome.ok 5, Outcome.ok 0,
        ReqDecodeOutcome.ok 0, Outcome.ok (), Outcome.panicked 3⟩).semaReleases = 1 ∧
    (serveConn ⟨true, false, false, none, Outcome.ok 5, Outcome.ok 0,
        ReqDecodeOutcome.ok 0, Outcome.ok (), Outcome.panicked 3⟩).counterDecs = 1 ∧
    (serveConn ⟨true, false, false, none, Outcome.ok 5, Outcome.ok 0,
        ReqDecodeOutcome.ok 0, Outcome.ok (), Outcome.panicked 3⟩).counterIncs = 1 ∧
    (serveConn ⟨true, false, false, none, Outcome.ok 5, Outcome.ok 0,
        ReqDecodeOutcome.ok 0, Outcome.ok (), Outcome.panicked 3⟩).connClosed = true ∧
    (∀ m : Nat,
      (bodyRun ⟨true, false, false, none, Outcome.ok 5, Outcome.ok 0,
        ReqDecodeOutcome.ok 0, Outcome.ok (), Outcome.panicked 3⟩).exit
          = ExitKind.panicExit m →
      (serveConn ⟨true, false, false, none, Outcome.ok 5, Outcome.ok 0,
        ReqDecodeOutcome.ok 0, Outcome.ok (), Outcome.panicked 3⟩).panicRecovered = true ∧
      (serveConn ⟨true, false, false, none, Outcome.ok 5, Outcome.ok 0,
        ReqDecodeOutcome.ok 0, Outcome.ok (), Outcome.panicked 3⟩).ret = none) :=
  admitted_always_released_once _ rfl

/-- Claim C4: when the slot pool is full, `ServeConn` returns the exhausted
error and closes the connection without reading a byte (neither the version
read nor any byte-consuming collaborator runs), without writing any reply,
without touching the live counter, and without publishing on the count
channel. -/
theorem pool_full_immediate_rejection (inp : ConnInput) (h : inp.semaFree = false) :
    (serveConn inp).ret = some GoErr.exhausted ∧
    (serveConn inp).connClosed = true ∧
    (serveConn inp).versionReadCalled = false ∧
    (serveConn inp).authCalled = false ∧
    (serveConn inp).newRequestCalled = false ∧
    (serveConn inp).handleRequestCalled = false ∧
    (serveConn inp).replySends = [] ∧
    (serveConn inp).counterIncs = 0 ∧
    (serveConn inp).counterDecs = 0 ∧
    (serveConn inp).countPublishAttempts = 0 := by
  simp [serveConn, h]

/-- Witness for C4: a concrete connection arriving at a full pool. -/
theorem pool_full_immediate_rejection_witness :
    (serveConn ⟨false, false, false, none, Outcome.ok 5, Outcome.ok 0,
        ReqDecodeOutcome.ok 0, Outcome.ok (), Outcome.ok ()⟩).ret = some GoErr.exhausted ∧
    (serveConn ⟨false, false, false, none, Outcome.ok 5, Outcome.ok 0,
        ReqDecodeOutcome.ok 0, Outcome.ok (), Outcome.ok ()⟩).connClosed = true ∧
    (serveConn ⟨false, false, false, none, Outcome.ok 5, Outcome.ok 0,
        ReqDecodeOutcome.ok 0, Outcome.ok (), Outcome.ok ()⟩).versionReadCalled = false ∧
    (serveConn ⟨false, false, false, none, Outcome.ok 5, Outcome.ok 0,
        ReqDecodeOutcome.ok 0, Outcome.ok (), Outcome.ok ()⟩).authCalled = false ∧
    (serveConn ⟨false, false, false, none, Outcome.ok 5, Outcome.ok 0,
        ReqDecodeOutcome.ok 0, Outcome.ok (), Outcome.ok ()⟩).newRequestCalled = false ∧
    (serveConn ⟨false, false, false, none, Outcome.ok 5, Outcome.ok 0,
        ReqDecodeOutcome.ok 0, Outcome.ok (), Outcome.ok ()⟩).handleRequestCalled = false ∧
    (serveConn ⟨false, false, false, none, Outcome.ok 5, Outcome.ok 0,
        ReqDecodeOutcome.ok 0, Outcome.ok (), Outcome.ok ()⟩).replySends = [] ∧
    (serveConn ⟨false, false, false, none, Outcome.ok 5, Outcome.ok 0,
        ReqDecodeOutcome.ok 0, Outcome.ok (), Outcome.ok ()⟩).counterIncs = 0 ∧
    (serveConn ⟨false, false, false, none, Outcome.ok 5, Outcome.ok 0,
        ReqDecodeOutcome.ok 0, Outcome.ok (), Outcome.ok ()⟩).counterDecs = 0 ∧
    (serveConn ⟨false, false, false, none, Outcome.ok 5, Outcome.ok 0,
        ReqDecodeOutcome.ok 0, Outcome.ok (), Outcome.ok ()⟩).countPublishAttempts = 0 :=
  pool_full_immediate_rejection _ rfl

/-- Claim C5: on an admitted connection whose version read yields a byte
other than 5, `ServeConn` returns the unsupported-version error before
authentication, request decoding or command execution run, and writes no
reply; a version byte equal to 5 proceeds into `s.authenticate`. -/
theorem version_byte_gates_protocol (inp : ConnInput) (v : Nat)
    (hadm : inp.semaFree = true) (hv : inp.versionRead = Outcome.ok v) :
    (v ≠ 5 →
      (serveConn inp).ret = some (GoErr.unsupportedVersion v) ∧
      (serveConn inp).authCalled = false ∧
      (serveConn inp).newRequestCalled = false ∧
      (serveConn inp).handleRequestCalled = false ∧
      (serveConn inp).replySends = []) ∧
    (v = 5 → (serveConn inp).authCalled = true) := by
  constructor
  · intro hne
    simp [serveConn, bodyRun, hadm, hv, hne]
  · intro h5
    subst h5
    cases ha : inp.authResult <;> cases hr : inp.requestResult <;>
      cases hs : inp.sendReplyResult <;> cases hh : inp.handleResult <;>
      simp [serveConn, bodyRun, hadm, hv, ha, hr, hs, hh]

/-- Witness for C5: version byte 7 is rejected with the unsupported-version
error, and version byte 5 reaches authentication. -/
theorem version_byte_gates_protocol_witness :
    (serveConn ⟨true, false, false, none, Outcome.ok 7, Outcome.ok 0,
        ReqDecodeOutcome.ok 0, Outcome.ok (), Outcome.ok ()⟩).ret
      = some (GoErr.unsupportedVersion 7) ∧
    (serveConn ⟨true, false, false, none, Outcome.ok 5, Outcome.ok 0,
        ReqDecodeOutcome.ok 0, Outcome.ok (), Outcome.ok ()⟩).authCalled = true :=
  ⟨((version_byte_gates_protocol _ 7 rfl rfl).1 (by decide)).1,
   (version_byte_gates_protocol _ 5 rfl rfl).2 rfl⟩

/-- Claim C6: on an admitted, version-checked, authenticated connection,
a request decode failing with the unrecognized-address-type error makes
`ServeConn` call `sendReply` with status `addrTypeNotSupported` and then
return an error (the wrapped decode error, or the reply-send error when that
write itself fails); any other decode error is returned with no reply
written. -/
theorem unrecognized_addr_type_reply_policy (inp : ConnInput) (a : Nat)
    (hadm : inp.semaFree = true) (hv : inp.versionRead = Outcome.ok 5)
    (ha : inp.authResult = Outcome.ok a) :
    (inp.requestResult = ReqDecodeOutcome.errUnrecognizedAddrType →
      (serveConn inp).replySends = [ReplyStatus.addrTypeNotSupported] ∧
      (∀ u : Unit, inp.sendReplyResult = Outcome.ok u →
        (serveConn inp).ret = some GoErr.failedReadDestAddrType) ∧
      (∀ e : Nat, inp.sendReplyResult = Outcome.fail e →
        (serveConn inp).ret = some (GoErr.failedSendReply e))) ∧
    (∀ e : Nat, inp.requestResult = ReqDecodeOutcome.errOther e →
      (serveConn inp).replySends = [] ∧
      (serveConn inp).ret = some (GoErr.failedReadDestOther e)) := by
  constructor
  · intro hreq
    refine ⟨?_, ?_, ?_⟩
    · cases hs : inp.sendReplyResult <;>
        simp [serveConn, bodyRun, hadm, hv, ha, hreq, hs]
    · intro u hs
      simp [serveConn, bodyRun, hadm, hv, ha, hreq, hs]
    · intro e hs
      simp [serveConn, bodyRun, hadm, hv, ha, hreq, hs]
  · intro e hreq
    simp [serveConn, bodyRun, hadm, hv, ha, hreq]

/-- Witness for C6: a concrete unrecognized-address-type decode failure gets
the `addrTypeNotSupported` reply, and a concrete other decode failure gets
no reply. -/
theorem unrecognized_addr_type_reply_policy_witness :
    (serveConn ⟨true, false, false, none, Outcome.ok 5, Outcome.ok 0,
        ReqDecodeOutcome.errUnrecognizedAddrType, Outcome.ok (), Outcome.ok ()⟩).replySends
      = [ReplyStatus.addrTypeNotSupported] ∧
    (serveConn ⟨true, false, false, none, Outcome.ok 5, Outcome.ok 0,
        ReqDecodeOutcome.errUnrecognizedAddrType, Outcome.ok (), Outcome.ok ()⟩).ret
      = some GoErr.failedReadDestAddrType ∧
    (serveConn ⟨true, false, false, none, Outcome.ok 5, Outcome.ok 0,
        ReqDecodeOutcome.errOther 6, Outcome.ok (), Outcome.ok ()⟩).replySends = [] ∧
    (serveConn ⟨true, false, false, none, Outcome.ok 5, Outcome.ok 0,
        ReqDecodeOutcome.errOther 6, Outcome.ok (), Outcome.ok ()⟩).ret
      = some (GoErr.failedReadDestOther 6) :=
  ⟨((unrecognized_addr_type_reply_policy _ 0 rfl rfl rfl).1 rfl).1,
   ((unrecognized_addr_type_reply_policy _ 0 rfl rfl rfl).1 rfl).2.1 () rfl,
   ((unrecognized_addr_type_reply_policy _ 0 rfl rfl rfl).2 6 rfl).1,
   ((unrecognized_addr_type_reply_policy _ 0 rfl rfl rfl).2 6 rfl).2⟩

/-- Counterexample for C7: the claim says a fatal listener error stops the
accept loop, but the loop body maps every accept error — the fatal
listener-level ones included — to log-and-continue, never to a loop exit. -/
theorem serve_fatal_listener_error_counterexample :
    (serveStep (AcceptResult.acceptErr true) = ServeAction.stop) = False := by
  simp [serveStep]

/-- Claim C7 as amended: the accept loop never terminates on any accept
result: every accept error (fatal listener errors included) is logged and
the loop continues, every accepted connection spawns a worker and the loop
continues, and a run over any finite sequence of accept results processes
all of them without exiting. -/
theorem serve_loop_always_continues :
    (∀ fatal : Bool, serveStep (AcceptResult.acceptErr fatal) = ServeAction.logAndContinue) ∧
    (∀ id : Nat, serveStep (AcceptResult.conn id) = ServeAction.spawnAndContinue id) ∧
    (∀ rs : List AcceptResult, (serveTrace rs).length = rs.length) := by
  refine ⟨fun _ => rfl, fun _ => rfl, fun rs => ?_⟩
  simp [serveTrace]

/-- Claim C8: a `Config` with `ConnLimit = 0` gets the default cap 50000:
the slot channel is created with capacity 50000 and the caller's config now
reads `ConnLimit = 50000`. -/
theorem connLimit_zero_defaults_to_50000 (h : ConfigHeap) (r : Nat)
    (hz : (h r).ConnLimit = 0) :
    (New h r).2.semaCap = 50000 ∧ ((New h r).1 r).ConnLimit = 50000 := by
  constructor
  · rw [New_semaCap, applyDefaults_ConnLimit, if_pos hz]
  · rw [New_heap_at, applyDefaults_ConnLimit, if_pos hz]

/-- Witness for C8: the all-default config. -/
theorem connLimit_zero_defaults_to_50000_witness :
    (New (fun _ => ⟨[], none, none, none, none, none, none, none, 0, 0, 0⟩) 0).2.semaCap
      = 50000 ∧
    ((New (fun _ => ⟨[], none, none, none, none, none, none, none, 0, 0, 0⟩) 0).1 0).ConnLimit
      = 50000 :=
  connLimit_zero_defaults_to_50000 _ 0 rfl

/-- Claim C9: with an empty auth-method list the constructor installs exactly
one authenticator — username/password wrapping the supplied credential store
when one is present, otherwise no-auth — and a non-empty list is left
unchanged. -/
theorem empty_auth_methods_defaulting (h : ConfigHeap) (r : Nat) :
    ((h r).AuthMethods = [] →
      (∀ cs : Nat, (h r).Credentials = some cs →
        ((New h r).1 r).AuthMethods = [Authenticator.UserPassAuthenticator cs]) ∧
      ((h r).Credentials = none →
        ((New h r).1 r).AuthMethods = [Authenticator.NoAuthAuthenticator])) ∧
    ((h r).AuthMethods ≠ [] → ((New h r).1 r).AuthMethods = (h r).AuthMethods) := by
  constructor
  · intro he
    constructor
    · intro cs hc
      rw [New_heap_at, applyDefaults_AuthMethods, defaultAuthMethods_empty _ he, hc]
    · intro hc
      rw [New_heap_at, applyDefaults_AuthMethods, defaultAuthMethods_empty _ he, hc]
  · intro hne
    rw [New_heap_at, applyDefaults_AuthMethods, defaultAuthMethods_nonempty _ hne]

/-- Witness for C9: with credentials the single installed authenticator is
username/password; without, no-auth; a non-empty list survives unchanged. -/
theorem empty_auth_methods_defaulting_witness :
    ((New (fun _ => ⟨[], some 5, none, none, none, none, none, none, 0, 0, 0⟩) 0).1 0).AuthMethods
      = [Authenticator.UserPassAuthenticator 5] ∧
    ((New (fun _ => ⟨[], none, none, none, none, none, none, none, 0, 0, 0⟩) 0).1 0).AuthMethods
      = [Authenticator.NoAuthAuthenticator] ∧
    ((New (fun _ => ⟨[Authenticator.custom 9], some 5, none, none, none, none, none, none,
        0, 0, 0⟩) 0).1 0).AuthMethods
      = [Authenticator.custom 9] :=
  ⟨((empty_auth_methods_defaulting _ 0).1 rfl).1 5 rfl,
   ((empty_auth_methods_defaulting _ 0).1 rfl).2 rfl,
   (empty_auth_methods_defaulting _ 0).2 (by decide)⟩

/-- Claim C10: `New` writes the defaulted values into the caller-supplied
`Config` cell itself — the heap cell at the caller's address afterwards
holds `applyDefaults` of its old contents, every other cell is untouched —
and the returned server's `config` field is that same address, so reading
the config through the server observes the caller's mutated object. -/
theorem new_mutates_caller_config_in_place (h : ConfigHeap) (r : Nat) :
    (New h r).2.config = r ∧
    (New h r).1 ((New h r).2.config) = applyDefaults (h r) ∧
    (∀ x : Nat, x ≠ r → (New h r).1 x = h x) ∧
    ((h r).Resolver = none → ((New h r).1 r).Resolver = some NameResolver.DNSResolver) ∧
    ((h r).Rules = none → ((New h r).1 r).Rules = some RuleSet.PermitAll) ∧
    ((h r).Logger = none → ((New h r).1 r).Logger = some GoLogger.stdoutLogger) ∧
    ((h r).ConnLimit = 0 → ((New h r).1 r).ConnLimit = 50000) := by
  refine ⟨New_config_ptr h r, ?_, ?_, ?_, ?_, ?_, ?_⟩
  · rw [New_config_ptr, New_heap_at]
  · intro x hx
    exact New_heap_frame h r x hx
  · intro hres
    simp [New_heap_at, applyDefaults_Resolver, hres]
  · intro hrul
    simp [New_heap_at, applyDefaults_Rules, hrul]
  · intro hlog
    simp [New_heap_at, applyDefaults_Logger, hlog]
  · intro hz
    simp [New_heap_at, applyDefaults_ConnLimit, hz]

/-- Witness for C10: a concrete heap whose cell 3 is the all-default config;
the server points at cell 3, cell 7 is untouched, and cell 3 now holds the
DNS resolver default. -/
theorem new_mutates_caller_config_in_place_witness :
    (New (fun _ => ⟨[], none, none, none, none, none, none, none, 0, 0, 0⟩) 3).2.config = 3 ∧
    (New (fun _ => ⟨[], none, none, none, none, none, none, none, 0, 0, 0⟩) 3).1 7
      = ⟨[], none, none, none, none, none, none, none, 0, 0, 0⟩ ∧
    ((New (fun _ => ⟨[], none, none, none, none, none, none, none, 0, 0, 0⟩) 3).1 3).Resolver
      = some NameResolver.DNSResolver :=
  ⟨(new_mutates_caller_config_in_place _ 3).1,
   (new_mutates_caller_config_in_place _ 3).2.2.1 7 (by decide),
   (new_mutates_caller_config_in_place _ 3).2.2.2.1 rfl⟩

end Socks5
